import Mathlib

/-!
Shallow embedding of the TimeFly activity-tracking core, translated from the
TypeScript sources:

* timing constants and activity tables: src/tracking/constants.ts and
  src/tracking/activities.ts;
* the activity classifier: createActivityClassifier (checkExpiration and
  getCurrentActivities);
* the pulse generator: createPulseGenerator.generatePulse in
  src/tracking/pulse.ts;
* the tracking storage: addPulse, getAndClearPulses and sync in
  src/tracking/storage.ts;
* the monolithic tracker startTracking (recordActivity, its debounce, and the
  duration pipeline of generateEvent), together with mergeMeta from
  src/tracking/utils/meta.ts.

Machine numbers (Date.now(), performance.now(), duration arithmetic) are
modelled as Int; the floating-point scaling expression of generateEvent is
modelled over Rat with JavaScript Math.round as round-half-up.  External
effects (the VS Code globalState store, fetch, randomUUID, clocks, metadata
providers) are passed in as explicit values.
-/

namespace TimeFly

/-! ## Constants (src/tracking/constants.ts) -/

def ACTIVITY_EXPIRATION_THRESHOLD : Int := 90000

def IDLE_THRESHOLD : Int := 90000

def INACTIVE_THRESHOLD : Int := 60000

def PULSE_GENERATION_INTERVAL : Int := 10000

/-! ## Activity names and productive sets -/

/-- The closed activity-name set, keys of ACTIVITY_PRIORITY in
src/tracking/constants.ts. -/
inductive ActivityName where
  | coding
  | debugging
  | reading
  | terminal_usage
  | ai_usage
  | idle
  | inactive
deriving DecidableEq, Repr, BEq

/-- PRODUCTIVE_ACTIVITIES from src/tracking/constants.ts, the list consulted
by the storage layer's addPulse. -/
def PRODUCTIVE_ACTIVITIES : List ActivityName :=
  [.coding, .debugging, .reading, .ai_usage, .terminal_usage]

/-- PRODUCTIVE_ACTIVITIES as computed in src/tracking/activities.ts
(the names of ACTIVITY_DEFINITIONS whose productive flag is true), the list
consulted by the monolithic tracker's generateEvent. -/
def PRODUCTIVE_ACTIVITIES_defs : List ActivityName :=
  [.coding, .debugging, .reading]

/-! ## Data model (src/tracking/types.ts) -/

/-- One activity inside a pulse. -/
structure Activity where
  name : ActivityName
  duration_ms : Int
  properties : List (String × String)
deriving DecidableEq, Repr

/-- A 10-second pulse of developer activity. -/
structure Pulse where
  event_id : String
  user_id : String
  project_id : String
  event_time : String
  metadata : List (String × String)
  activities : List Activity
deriving DecidableEq, Repr

/-- An activity currently considered live by the classifier. -/
structure ActiveActivity where
  name : ActivityName
  startedAt : Int
  lastEventAt : Int
  properties : List (String × String)
deriving DecidableEq, Repr

/-- The daily productive-time record stored under
timefly.tracking.dailySummary. -/
structure DailySummary where
  date : String
  productiveTimeMs : Int
deriving DecidableEq, Repr

/-- The slice of the user record that generatePulse reads. -/
structure UserInfo where
  uuid : String
deriving DecidableEq, Repr

/-! ## Activity classifier (createActivityClassifier) -/

/-- The classifier's mutable state: the activeActivities array and the
lastEventTimestamp clock. -/
structure ClassifierState where
  activeActivities : List ActiveActivity
  lastEventTimestamp : Int
deriving Repr

/-- checkExpiration: drop every active activity whose lastEventAt is more
than ACTIVITY_EXPIRATION_THRESHOLD before now. -/
def checkExpiration (s : ClassifierState) (now : Int) : ClassifierState :=
  { s with
    activeActivities :=
      s.activeActivities.filter
        (fun a => now - a.lastEventAt ≤ ACTIVITY_EXPIRATION_THRESHOLD) }

/-- getCurrentActivities: expire first; if the remaining set is empty,
synthesize an inactive or idle pseudo-activity from the time since the last
event; otherwise return the active set. -/
def getCurrentActivities (s : ClassifierState) (now : Int) : List ActiveActivity :=
  let s' := checkExpiration s now
  let timeSinceLastEvent := now - s'.lastEventTimestamp
  if s'.activeActivities.isEmpty then
    if timeSinceLastEvent > INACTIVE_THRESHOLD + IDLE_THRESHOLD then
      [{ name := .inactive, startedAt := now, lastEventAt := now, properties := [] }]
    else if timeSinceLastEvent > IDLE_THRESHOLD then
      [{ name := .idle, startedAt := now, lastEventAt := now, properties := [] }]
    else
      s'.activeActivities
  else
    s'.activeActivities

/-! ## Pulse generator (createPulseGenerator.generatePulse) -/

/-- generatePulse: skip when the classifier snapshot is empty or no user info
is stored; otherwise build a pulse giving every active activity the full
PULSE_GENERATION_INTERVAL as its duration.  The fresh UUID, workspace name,
clock reading and merged metadata are passed in as values. -/
def generatePulse (activeActivities : List ActiveActivity)
    (userInfo : Option UserInfo) (eventId : String) (projectId : String)
    (eventTime : String) (metadata : List (String × String)) : Option Pulse :=
  if activeActivities.isEmpty then
    none
  else
    match userInfo with
    | none => none
    | some u =>
        some
          { event_id := eventId
            user_id := u.uuid
            project_id := projectId
            event_time := eventTime
            metadata := metadata
            activities :=
              activeActivities.map fun active =>
                { name := active.name
                  duration_ms := PULSE_GENERATION_INTERVAL
                  properties := active.properties } }

/-- Total duration carried by a pulse's activity list. -/
def pulseDurationSum (p : Pulse) : Int :=
  (p.activities.map (·.duration_ms)).sum

/-! ## Tracking storage (src/tracking/storage.ts)

The VS Code globalState store is modelled as a value: the pulse buffer under
timefly.tracking.pulseBuffer and the optional daily summary under
timefly.tracking.dailySummary.  A globalState.update call is a Thenable that
may reject; addPulse wraps its body in try/catch and swallows any rejection,
so the write outcome is passed in as a Bool. -/

/-- The persisted slice of globalState that the tracking storage touches. -/
structure StorageState where
  buffer : List Pulse
  storedSummary : Option DailySummary
deriving DecidableEq, Repr

/-- getDailySummary: return the stored summary when it is for today,
otherwise a fresh zero record for today. -/
def getDailySummary (today : String) (stored : Option DailySummary) : DailySummary :=
  match stored with
  | some s => if s.date = today then s else { date := today, productiveTimeMs := 0 }
  | none => { date := today, productiveTimeMs := 0 }

/-- The isProductive test inside addPulse: some activity of the pulse has a
name in PRODUCTIVE_ACTIVITIES (the constants.ts list). -/
def pulseIsProductive (p : Pulse) : Bool :=
  p.activities.any (fun activity => PRODUCTIVE_ACTIVITIES.contains activity.name)

/-- addPulse: append the pulse to the buffer and persist it; when the pulse
contains a productive activity, add PULSE_GENERATION_INTERVAL to today's
summary and persist that too.  writeOk is the outcome of the savePulses
write: when it is false the awaited update rejects, the catch block logs the
error, nothing is persisted, and the call still returns normally. -/
def addPulse (writeOk : Bool) (st : StorageState) (today : String)
    (p : Pulse) : StorageState :=
  if writeOk then
    let buffer' := st.buffer ++ [p]
    if pulseIsProductive p then
      let summary := getDailySummary today st.storedSummary
      { buffer := buffer'
        storedSummary :=
          some { summary with productiveTimeMs := summary.productiveTimeMs + PULSE_GENERATION_INTERVAL } }
    else
      { st with buffer := buffer' }
  else
    st

/-- The outcome of the fetch inside sync: an HTTP response with some status,
or a thrown transport error. -/
inductive TransportOutcome where
  | httpResponse (status : Nat)
  | networkError
deriving DecidableEq, Repr

/-- Response.ok of the fetch API: the status lies in the range 200..299. -/
def responseOk (status : Nat) : Bool :=
  decide (200 ≤ status) && decide (status ≤ 299)

/-- sync: snapshot-and-clear the buffer into pulsesToSync; an empty batch is
a trivial success; with no API key, or a non-2xx response, or a thrown
transport error, savePulses(pulsesToSync) overwrites the buffer and the call
fails; on a 2xx response the batch is discarded.  addedDuring
is the list of pulses appended by addPulse calls that complete during the
awaits of this sync call (they land in the freshly cleared buffer); the
result is the returned Bool together with the buffer contents after the
call. -/
def sync (buffer : List Pulse) (apiKey : Option String)
    (transport : TransportOutcome) (addedDuring : List Pulse) :
    Bool × List Pulse :=
  let pulsesToSync := buffer
  if pulsesToSync.isEmpty then
    (true, addedDuring)
  else
    match apiKey with
    | none => (false, pulsesToSync)
    | some _ =>
        match transport with
        | .httpResponse status =>
            if responseOk status then (true, addedDuring)
            else (false, pulsesToSync)
        | .networkError => (false, pulsesToSync)

/-- Whether a transport outcome is an HTTP response with a 2xx status. -/
def is2xx (transport : TransportOutcome) : Bool :=
  match transport with
  | .httpResponse status => responseOk status
  | .networkError => false

/-! ## Metadata merging (src/tracking/utils/meta.ts)

A JS object with string or numeric values is modelled as an association list
that preserves key insertion order, mirroring JS property order. -/

/-- A metadata value: a JS number or string. -/
inductive MetaVal where
  | num (n : Int)
  | str (s : String)
deriving DecidableEq, Repr

/-- A metadata record, insertion-ordered as in a JS object. -/
abbrev MetaRecord := List (String × MetaVal)

/-- JS property read m[k]. -/
def metaGet (m : MetaRecord) (k : String) : Option MetaVal :=
  (m.find? (fun kv => kv.1 = k)).map (·.2)

/-- JS property write m[k] = v: an existing key keeps its position, a new
key is appended. -/
def metaSet (m : MetaRecord) (k : String) (v : MetaVal) : MetaRecord :=
  match m with
  | [] => [(k, v)]
  | (k', v') :: rest =>
      if k' = k then (k', v) :: rest else (k', v') :: metaSet rest k v

/-- mergeMeta: start from a copy of a; for each entry of b, add numeric
values onto an existing numeric value, otherwise overwrite (last write
wins). -/
def mergeMeta (a b : MetaRecord) : MetaRecord :=
  b.foldl
    (fun result kv =>
      match metaGet result kv.1, kv.2 with
      | some (.num n), .num m => metaSet result kv.1 (.num (n + m))
      | _, _ => metaSet result kv.1 kv.2)
    a

/-! ## Monolithic tracker startTracking: recordActivity and generateEvent

This tracker keeps per-name maps (firstSeen, lastSeen, lastTrigger,
activityMeta) and a JS Set of active names; both are modelled as
insertion-ordered association lists.  Clock readings from performance.now()
are passed in as explicit Int values. -/

/-- Map read for a per-name association list. -/
def amapGet {β : Type} (m : List (ActivityName × β)) (k : ActivityName) :
    Option β :=
  (m.find? (fun kv => kv.1 = k)).map (·.2)

/-- Map.set for a per-name association list: an existing key keeps its
position, a new key is appended. -/
def amapSet {β : Type} (m : List (ActivityName × β)) (k : ActivityName)
    (v : β) : List (ActivityName × β) :=
  match m with
  | [] => [(k, v)]
  | (k', v') :: rest =>
      if k' = k then (k', v) :: rest else (k', v') :: amapSet rest k v

/-- JS Set.add: append the element when absent. -/
def setAdd (s : List ActivityName) (x : ActivityName) : List ActivityName :=
  if s.contains x then s else s ++ [x]

/-- JS Set.delete: remove the element. -/
def setDelete (s : List ActivityName) (x : ActivityName) : List ActivityName :=
  s.filter (fun y => y ≠ x)

/-- Modelled from the spec: the constant DETECTOR_DEBOUNCE_MS imported by the
monolithic tracker is defined in a constants module that is not in the
sources; the spec gives the per-name debounce window as 250 ms. -/
def DETECTOR_DEBOUNCE_MS : Int := 250

/-- The monolithic tracker's per-window state. -/
structure TrackerState where
  lastUserActivity : Int
  activeActivities : List ActivityName
  activityMeta : List (ActivityName × MetaRecord)
  firstSeen : List (ActivityName × Int)
  lastSeen : List (ActivityName × Int)
  lastTrigger : List (ActivityName × Int)
  windowStart : Int
deriving Repr

/-- The state set up at the tail of startTracking: the tracker starts in the
idle state with firstSeen and lastSeen for idle at windowStart. -/
def initTrackerState (t0 : Int) : TrackerState :=
  { lastUserActivity := t0
    activeActivities := [.idle]
    activityMeta := []
    firstSeen := [(.idle, t0)]
    lastSeen := [(.idle, t0)]
    lastTrigger := []
    windowStart := t0 }

/-- recordActivity: refresh lastUserActivity; when the same name triggered
within DETECTOR_DEBOUNCE_MS, only refresh lastSeen and merge metadata;
otherwise re-trigger, record firstSeen on first sight, refresh lastSeen,
clear the idle and inactive markers for real activities, add the name to the
active set, and merge metadata.  A missing lastTrigger entry reads as
negative infinity, so the debounce test fails. -/
def recordActivity (s : TrackerState) (now : Int) (activity : ActivityName)
    (meta : MetaRecord) : TrackerState :=
  let s0 := { s with lastUserActivity := now }
  let debounced :=
    match amapGet s0.lastTrigger activity with
    | some prev => decide (now - prev < DETECTOR_DEBOUNCE_MS)
    | none => false
  if debounced then
    { s0 with
      lastSeen := amapSet s0.lastSeen activity now
      activityMeta :=
        amapSet s0.activityMeta activity
          (mergeMeta ((amapGet s0.activityMeta activity).getD []) meta) }
  else
    let s1 := { s0 with lastTrigger := amapSet s0.lastTrigger activity now }
    let s2 :=
      { s1 with
        firstSeen :=
          if (amapGet s1.firstSeen activity).isSome then s1.firstSeen
          else amapSet s1.firstSeen activity now }
    let s3 := { s2 with lastSeen := amapSet s2.lastSeen activity now }
    let s4 :=
      if activity ≠ .idle ∧ activity ≠ .inactive then
        { s3 with
          activeActivities :=
            setDelete (setDelete s3.activeActivities .idle) .inactive }
      else s3
    let s5 := { s4 with activeActivities := setAdd s4.activeActivities activity }
    { s5 with
      activityMeta :=
        amapSet s5.activityMeta activity
          (mergeMeta ((amapGet s5.activityMeta activity).getD []) meta) }

/-! ## generateEvent duration pipeline (monolithic tracker)

generateEvent computes, for each active name, a raw duration
lastSeen - firstSeen, clamps it into [0, window], rounds it with Math.round,
and, when the rounded total exceeds the window, rescales every entry by
window / total with Math.round again.  performance.now() readings are real
numbers; the arithmetic is modelled exactly over Rat.  The pipeline is
parameterised by the window length W; the source instantiates W with
PULSE_GENERATION_INTERVAL. -/

/-- JavaScript Math.round: round half away from zero toward positive
infinity, i.e. the floor of x + 1/2. -/
def jsRound (x : ℚ) : Int :=
  ⌊x + 1 / 2⌋

/-- The clamp of generateEvent: negative durations become 0, durations above
the window become the window. -/
def clampDuration (W : ℚ) (d : ℚ) : ℚ :=
  if d < 0 then 0 else if d > W then W else d

/-- The per-entry rounded, clamped durations of generateEvent. -/
def rawDurations (W : ℚ) (raws : List ℚ) : List Int :=
  raws.map (fun d => jsRound (clampDuration W d))

/-- The rescaling step of generateEvent: when the rounded total exceeds the
window, multiply every entry by the scale W / total and round again. -/
def scaleDurations (W : Int) (ds : List Int) : List Int :=
  let totalDur := ds.sum
  if totalDur > W then
    ds.map (fun d => jsRound ((d : ℚ) * ((W : ℚ) / (totalDur : ℚ))))
  else
    ds

/-- The whole duration pipeline of generateEvent for one window: clamp and
round the raw durations, then rescale when their sum exceeds the window. -/
def generateEventDurations (W : Int) (raws : List ℚ) : List Int :=
  scaleDurations W (rawDurations (W : ℚ) raws)

/-- The addedProductive accumulation of generateEvent: sum the duration_ms
of the entries whose name is in the activities.ts productive list. -/
def addedProductive (entries : List Activity) : Int :=
  entries.foldl
    (fun acc a =>
      if PRODUCTIVE_ACTIVITIES_defs.contains a.name then acc + a.duration_ms
      else acc)
    0

/-- Stated from the spec, for comparison with addedProductive and with the
storage layer's counter update: the sum of the duration_ms values of exactly
those activities whose names are productive. -/
def specProductiveSum (productiveNames : List ActivityName)
    (entries : List Activity) : Int :=
  ((entries.filter (fun a => productiveNames.contains a.name)).map
    (·.duration_ms)).sum

/-! ## Concrete fixtures used by the evaluated theorems -/

/-- A pulse with the given event id and no activities. -/
def mkPulse (id : String) : Pulse :=
  { event_id := id
    user_id := "user"
    project_id := "proj"
    event_time := "2026-10-11T00:00:00.000Z"
    metadata := []
    activities := [] }

/-- Five pulses sitting in the buffer before a sync call. -/
def bufferedFive : List Pulse :=
  [mkPulse "p1", mkPulse "p2", mkPulse "p3", mkPulse "p4", mkPulse "p5"]

/-- Two concurrently live activities as the classifier hands them to the
pulse generator. -/
def twoActivitySnapshot : List ActiveActivity :=
  [{ name := .coding, startedAt := 0, lastEventAt := 5000, properties := [] },
   { name := .reading, startedAt := 0, lastEventAt := 6000, properties := [] }]

/-- A classifier state with no live activities whose last event is in the
past. -/
def staleClassifier : ClassifierState :=
  { activeActivities := [], lastEventTimestamp := 0 }

/-- A pulse whose single activity is 3000 ms of coding. -/
def codingOnlyPulse : Pulse :=
  { event_id := "e1"
    user_id := "user"
    project_id := "proj"
    event_time := "2026-10-11T00:00:00.000Z"
    metadata := []
    activities := [{ name := .coding, duration_ms := 3000, properties := [] }] }

/-! ## Shared helper lemmas -/

/-- The summary returned by getDailySummary is always dated today. -/
theorem getDailySummary_date (today : String) (stored : Option DailySummary) :
    (getDailySummary today stored).date = today := by
  unfold getDailySummary
  rcases stored with _ | s
  · rfl
  · by_cases h : s.date = today <;> simp [h]

/-- The foldl of addedProductive, run from any accumulator, adds the sum of
the productive entries. -/
theorem addedProductive_foldl (entries : List Activity) (acc : Int) :
    entries.foldl
        (fun acc a =>
          if PRODUCTIVE_ACTIVITIES_defs.contains a.name then acc + a.duration_ms
          else acc)
        acc =
      acc + specProductiveSum PRODUCTIVE_ACTIVITIES_defs entries := by
  induction entries generalizing acc with
  | nil => simp [specProductiveSum]
  | cons a rest ih =>
      by_cases h : PRODUCTIVE_ACTIVITIES_defs.contains a.name <;>
        (simp [specProductiveSum, h, ih, List.filter_cons]; try ring)

/-! ## Claim theorems -/

/-- C1: the claim states that after a failed sync the buffer holds every
pulse queued before the call plus every pulse added during it.  The code
instead overwrites the buffer with the snapshotted batch on failure: with
five buffered pulses, an HTTP 500, and one pulse added by addPulse while the
request is in flight, sync returns failure with the buffer holding exactly
the original five — the concurrently added pulse is gone. -/
theorem sync_http500_drops_concurrently_added_pulse :
    sync bufferedFive (some "key") (.httpResponse 500) [mkPulse "p6"] =
        (false, bufferedFive) ∧
      mkPulse "p6" ∉ bufferedFive := by
  constructor
  · rfl
  · decide

/-- C2: the claim states that every emitted pulse's durations sum to at most
the window length.  generatePulse gives every active activity the full
PULSE_GENERATION_INTERVAL, so a pulse built from two concurrent activities
carries 20000 ms in a 10000 ms window; and the Math.round rescaling of
generateEvent maps clamped durations 4999, 4999, 5002 to 3333, 3333, 3335,
which sum to 10001 ms in a 10000 ms window. -/
theorem pulse_duration_sum_exceeds_window :
    ((generatePulse twoActivitySnapshot (some { uuid := "user" }) "e2" "proj"
          "t" []).map pulseDurationSum = some 20000 ∧
        (20000 : Int) > PULSE_GENERATION_INTERVAL) ∧
      (generateEventDurations PULSE_GENERATION_INTERVAL [4999, 4999, 5002] =
          [3333, 3333, 3335] ∧
        (3333 + 3333 + 3335 : Int) > PULSE_GENERATION_INTERVAL) := by
  refine ⟨⟨rfl, by decide⟩, ⟨?_, by decide⟩⟩
  norm_num [generateEventDurations, scaleDurations, rawDurations,
    clampDuration, jsRound, PULSE_GENERATION_INTERVAL, Int.floor_eq_iff]

/-- C9: sync returns success exactly when the snapshotted batch is empty or
an API key is present and the POST came back with a 2xx status; every
non-2xx status, thrown transport error, and missing key yields failure. -/
theorem sync_success_iff_empty_or_2xx (buffer : List Pulse)
    (apiKey : Option String) (transport : TransportOutcome)
    (addedDuring : List Pulse) :
    (sync buffer apiKey transport addedDuring).1 =
      (buffer.isEmpty || (apiKey.isSome && is2xx transport)) := by
  rcases buffer with _ | ⟨p, rest⟩
  · simp [sync]
  · rcases apiKey with _ | key
    · simp [sync]
    · rcases transport with status | _
      · by_cases h : responseOk status <;> simp [sync, is2xx, h]
      · simp [sync, is2xx]

/-- C3 counterexample: at a tick 91 seconds after the last event the
classifier snapshot is exactly the idle pseudo-activity, yet generatePulse
still emits a pulse for it — the generator only skips the empty snapshot,
not idle or inactive ones. -/
theorem generatePulse_emits_on_idle_only_snapshot :
    ((getCurrentActivities staleClassifier 91000).map (·.name) = [.idle]) ∧
      (generatePulse (getCurrentActivities staleClassifier 91000)
            (some { uuid := "user" }) "e3" "proj" "t" []).isSome = true := by
  constructor
  · rfl
  · rfl

/-- C3 (amended): the pulse generator emits zero pulses for a tick exactly
when getCurrentActivities returned the empty set or no user info was stored;
a snapshot containing only the idle or inactive pseudo-activity still
produces a pulse. -/
theorem generatePulse_none_iff_empty_or_no_user (acts : List ActiveActivity)
    (userInfo : Option UserInfo) (eventId projectId eventTime : String)
    (metadata : List (String × String)) :
    generatePulse acts userInfo eventId projectId eventTime metadata = none ↔
      acts = [] ∨ userInfo = none := by
  rcases acts with _ | ⟨a, rest⟩ <;> rcases userInfo with _ | u <;>
    simp [generatePulse]

/-- C4 counterexample: raw durations 10000 ms and 6000 ms in an 8000 ms
window do not scale to within 1 ms of the 10:6 proportional shares 5000 and
3000: the code first clamps 10000 down to the 8000 ms window, so the scaled
output is 4571 and 3429, and 4571 is 429 ms away from 5000. -/
theorem scaling_example_deviates_from_ten_to_six :
    generateEventDurations 8000 [10000, 6000] = [4571, 3429] ∧
      ¬((4571 - 5000 : Int).natAbs ≤ 1 ∧ (3429 - 3000 : Int).natAbs ≤ 1) := by
  constructor
  · norm_num [generateEventDurations, scaleDurations, rawDurations,
      clampDuration, jsRound, Int.floor_eq_iff]
  · decide

/-- C4 (amended): raw durations 10000 ms and 6000 ms in an 8000 ms window
are first clamped to the window (8000 and 6000) and rounded, then, because
their 14000 ms total exceeds the window, every entry is scaled by
window / total with JavaScript Math.round (round half up, not truncation):
the result is 4571 and 3429, each within 1 ms of the exact proportional
shares 8000 * (8000 / 14000) and 8000 * (6000 / 14000) of the clamped
durations, and the sum is exactly 8000 ms. -/
theorem scaling_example_clamped_shares :
    generateEventDurations 8000 [10000, 6000] = [4571, 3429] ∧
      (4571 + 3429 : Int) = 8000 ∧
      |(4571 : ℚ) - 8000 * (8000 / 14000)| ≤ 1 ∧
      |(3429 : ℚ) - 8000 * (6000 / 14000)| ≤ 1 := by
  refine ⟨?_, by norm_num, ?_, ?_⟩
  · norm_num [generateEventDurations, scaleDurations, rawDurations,
      clampDuration, jsRound, Int.floor_eq_iff]
  · rw [abs_le]; constructor <;> norm_num
  · rw [abs_le]; constructor <;> norm_num

/-- The C5 scenario: from the freshly started tracker, recordActivity for
coding with metadata chars = 5 at time t1 and again at time t2. -/
def doubleCoding (t0 t1 t2 : Int) : TrackerState :=
  recordActivity
    (recordActivity (initTrackerState t0) t1 .coding [("chars", .num 5)])
    t2 .coding [("chars", .num 5)]

/-- C5: when the second recordActivity for coding lands within the debounce
window of the first, the tracker holds exactly one active entry for coding,
its chars metadata is the sum 10, and the first-seen and last-trigger
bookkeeping still carry the first call's timestamp — the second call did not
re-trigger them. -/
theorem recordActivity_debounce_merges_chars (t0 t1 t2 : Int)
    (h : t2 - t1 < DETECTOR_DEBOUNCE_MS) :
    (doubleCoding t0 t1 t2).activeActivities = [.coding] ∧
      amapGet (doubleCoding t0 t1 t2).activityMeta .coding =
        some [("chars", .num 10)] ∧
      amapGet (doubleCoding t0 t1 t2).firstSeen .coding = some t1 ∧
      amapGet (doubleCoding t0 t1 t2).lastTrigger .coding = some t1 := by
  have step1 :
      recordActivity (initTrackerState t0) t1 .coding [("chars", .num 5)] =
        { lastUserActivity := t1
          activeActivities := [.coding]
          activityMeta := [(.coding, [("chars", .num 5)])]
          firstSeen := [(.idle, t0), (.coding, t1)]
          lastSeen := [(.idle, t0), (.coding, t1)]
          lastTrigger := [(.coding, t1)]
          windowStart := t0 } := by
    simp [recordActivity, initTrackerState, amapGet, amapSet, setAdd,
      setDelete, mergeMeta, metaGet, metaSet]
  have step2 :
      doubleCoding t0 t1 t2 =
        { lastUserActivity := t2
          activeActivities := [.coding]
          activityMeta := [(.coding, [("chars", .num 10)])]
          firstSeen := [(.idle, t0), (.coding, t1)]
          lastSeen := [(.idle, t0), (.coding, t2)]
          lastTrigger := [(.coding, t1)]
          windowStart := t0 } := by
    rw [doubleCoding, step1]
    simp [recordActivity, amapGet, amapSet, setAdd, setDelete, mergeMeta,
      metaGet, metaSet, h]
  rw [step2]
  refine ⟨rfl, ?_, ?_, ?_⟩ <;> simp [amapGet]

/-- C5 witness: the debounce law at t0 = 0, t1 = 1000, t2 = 1100. -/
theorem recordActivity_debounce_merges_chars_witness :
    ((1100 : Int) - 1000 < DETECTOR_DEBOUNCE_MS) ∧
      ((doubleCoding 0 1000 1100).activeActivities = [.coding] ∧
        amapGet (doubleCoding 0 1000 1100).activityMeta .coding =
          some [("chars", .num 10)] ∧
        amapGet (doubleCoding 0 1000 1100).firstSeen .coding = some 1000 ∧
        amapGet (doubleCoding 0 1000 1100).lastTrigger .coding = some 1000) :=
  ⟨by decide, recordActivity_debounce_merges_chars 0 1000 1100 (by decide)⟩

/-- checkExpiration does not touch the last-event clock. -/
theorem checkExpiration_lastEventTimestamp (s : ClassifierState) (now : Int) :
    (checkExpiration s now).lastEventTimestamp = s.lastEventTimestamp := rfl

/-- When every live activity is older than the expiration threshold,
checkExpiration empties the active set. -/
theorem checkExpiration_empty (s : ClassifierState) (now : Int)
    (h : ∀ a ∈ s.activeActivities,
      now - a.lastEventAt > ACTIVITY_EXPIRATION_THRESHOLD) :
    (checkExpiration s now).activeActivities = [] := by
  simp only [checkExpiration]
  rw [List.filter_eq_nil_iff]
  intro a ha
  have ha' := h a ha
  simp only [decide_eq_true_eq, not_le]
  omega

/-- When expiration empties the active set, getCurrentActivities reduces to
the inactive and idle threshold checks on the time since the last event. -/
theorem getCurrentActivities_of_empty (s : ClassifierState) (now : Int)
    (hemp : (checkExpiration s now).activeActivities = []) :
    getCurrentActivities s now =
      if now - s.lastEventTimestamp > INACTIVE_THRESHOLD + IDLE_THRESHOLD then
        [{ name := .inactive, startedAt := now, lastEventAt := now,
           properties := [] }]
      else if now - s.lastEventTimestamp > IDLE_THRESHOLD then
        [{ name := .idle, startedAt := now, lastEventAt := now,
           properties := [] }]
      else [] := by
  simp only [getCurrentActivities, checkExpiration_lastEventTimestamp, hemp,
    List.isEmpty_nil, if_true]

/-- C6: with IDLE_THRESHOLD 90000 ms and INACTIVE_THRESHOLD 60000 ms, when
no event has been processed for 91 seconds every live activity has also
expired, and getCurrentActivities synthesizes exactly the idle
pseudo-activity; after 151 seconds it synthesizes exactly the inactive
one. -/
theorem getCurrentActivities_idle_inactive_thresholds (s : ClassifierState)
    (now1 now2 : Int)
    (hmono : ∀ a ∈ s.activeActivities, a.lastEventAt ≤ s.lastEventTimestamp)
    (h1 : now1 - s.lastEventTimestamp = 91000)
    (h2 : now2 - s.lastEventTimestamp = 151000) :
    (getCurrentActivities s now1).map (·.name) = [.idle] ∧
      (getCurrentActivities s now2).map (·.name) = [.inactive] := by
  have thr : ACTIVITY_EXPIRATION_THRESHOLD = 90000 := rfl
  have hemp1 : (checkExpiration s now1).activeActivities = [] := by
    refine checkExpiration_empty s now1 fun a ha => ?_
    have := hmono a ha
    omega
  have hemp2 : (checkExpiration s now2).activeActivities = [] := by
    refine checkExpiration_empty s now2 fun a ha => ?_
    have := hmono a ha
    omega
  have thrI : INACTIVE_THRESHOLD + IDLE_THRESHOLD = (150000 : Int) := rfl
  have thr2 : IDLE_THRESHOLD = (90000 : Int) := rfl
  constructor
  · rw [getCurrentActivities_of_empty s now1 hemp1]
    rw [if_neg (by omega), if_pos (by omega)]
    rfl
  · rw [getCurrentActivities_of_empty s now2 hemp2]
    rw [if_pos (by omega)]
    rfl

/-- A classifier state with one coding activity last seen at the last-event
clock. -/
def oneStaleCoding : ClassifierState :=
  { activeActivities :=
      [{ name := .coding, startedAt := 0, lastEventAt := 0, properties := [] }]
    lastEventTimestamp := 0 }

/-- C6 witness: the threshold law at the one-activity state with the last
event at time 0, read at 91000 ms and at 151000 ms. -/
theorem getCurrentActivities_idle_inactive_thresholds_witness :
    (∀ a ∈ oneStaleCoding.activeActivities,
        a.lastEventAt ≤ oneStaleCoding.lastEventTimestamp) ∧
      ((getCurrentActivities oneStaleCoding 91000).map (·.name) = [.idle] ∧
        (getCurrentActivities oneStaleCoding 151000).map (·.name) =
          [.inactive]) :=
  ⟨by decide,
    getCurrentActivities_idle_inactive_thresholds oneStaleCoding 91000 151000
      (by decide) (by decide) (by decide)⟩

/-- C7 counterexample: a pulse whose only activity is 3000 ms of coding adds
the full 10000 ms PULSE_GENERATION_INTERVAL to the daily counter, not the
3000 ms sum of productive durations the claim requires. -/
theorem addPulse_counter_ignores_durations :
    (addPulse true { buffer := [], storedSummary := none } "2026-10-11"
          codingOnlyPulse).storedSummary =
        some { date := "2026-10-11", productiveTimeMs := 10000 } ∧
      specProductiveSum PRODUCTIVE_ACTIVITIES codingOnlyPulse.activities =
        3000 ∧
      (10000 : Int) ≠ 3000 := by
  refine ⟨rfl, rfl, by decide⟩

/-- C7 (amended): when addPulse stores a pulse, the daily counter for the
current UTC day is increased by exactly PULSE_GENERATION_INTERVAL if the
pulse contains at least one productive activity and is left untouched
otherwise — independent of the activities' durations — and the updated
counter is persisted; the monolithic tracker's generateEvent, by contrast,
accumulates exactly the sum of the productive entries' durations. -/
theorem addPulse_counter_adds_full_interval (st : StorageState)
    (today : String) (p : Pulse) (entries : List Activity) :
    ((addPulse true st today p).storedSummary =
      if pulseIsProductive p then
        some { date := today
               productiveTimeMs :=
                 (getDailySummary today st.storedSummary).productiveTimeMs +
                   PULSE_GENERATION_INTERVAL }
      else st.storedSummary) ∧
      addedProductive entries =
        specProductiveSum PRODUCTIVE_ACTIVITIES_defs entries := by
  constructor
  · by_cases h : pulseIsProductive p <;>
      simp [addPulse, h, getDailySummary_date]
  · simp [addedProductive, addedProductive_foldl]

/-- C8 counterexample: when the persistence write rejects, addPulse catches
the error and returns normally, but the pulse is not in the buffer, so it is
invisible to a subsequent sync. -/
theorem addPulse_failed_write_invisible :
    (addPulse false { buffer := [], storedSummary := none } "2026-10-11"
          codingOnlyPulse).buffer = [] ∧
      codingOnlyPulse ∉
        (addPulse false { buffer := [], storedSummary := none } "2026-10-11"
            codingOnlyPulse).buffer := by
  refine ⟨rfl, ?_⟩
  simp [addPulse]

/-- C8 (amended): when the persistence write completes, addPulse appends the
pulse to the persisted buffer, where the next sync call's snapshot picks it
up; when the write fails the rejection is caught and logged, the call still
returns normally without retrying, and the buffer is unchanged. -/
theorem addPulse_write_outcomes (st : StorageState) (today : String)
    (p : Pulse) :
    (addPulse true st today p).buffer = st.buffer ++ [p] ∧
      p ∈ (addPulse true st today p).buffer ∧
      (addPulse false st today p).buffer = st.buffer := by
  refine ⟨?_, ?_, rfl⟩ <;>
    by_cases h : pulseIsProductive p <;> simp [addPulse, h]

/-- C10: when the active set is empty after expiration and strictly less
than IDLE_THRESHOLD has elapsed since the last processed event — right after
startup, or just after the last activity expired — getCurrentActivities
returns the empty list without synthesizing idle or inactive, and the pulse
generator consequently emits no pulse for the tick. -/
theorem getCurrentActivities_empty_when_fresh (s : ClassifierState)
    (now : Int) (userInfo : Option UserInfo)
    (eventId projectId eventTime : String)
    (metadata : List (String × String))
    (hexp : ∀ a ∈ s.activeActivities,
      now - a.lastEventAt > ACTIVITY_EXPIRATION_THRESHOLD)
    (hfresh : now - s.lastEventTimestamp < IDLE_THRESHOLD) :
    getCurrentActivities s now = [] ∧
      generatePulse (getCurrentActivities s now) userInfo eventId projectId
          eventTime metadata = none := by
  have thrI : INACTIVE_THRESHOLD + IDLE_THRESHOLD = (150000 : Int) := rfl
  have thr2 : IDLE_THRESHOLD = (90000 : Int) := rfl
  have hcur : getCurrentActivities s now = [] := by
    rw [getCurrentActivities_of_empty s now (checkExpiration_empty s now hexp)]
    rw [if_neg (by omega), if_neg (by omega)]
  refine ⟨hcur, ?_⟩
  rw [hcur]
  rcases userInfo with _ | u <;> simp [generatePulse]

/-- C10 witness: the freshly created classifier — no live activities, last
event just now — at time 0 with user info present. -/
theorem getCurrentActivities_empty_when_fresh_witness :
    (∀ a ∈ staleClassifier.activeActivities,
        (0 : Int) - a.lastEventAt > ACTIVITY_EXPIRATION_THRESHOLD) ∧
      ((0 : Int) - staleClassifier.lastEventTimestamp < IDLE_THRESHOLD) ∧
      (getCurrentActivities staleClassifier 0 = [] ∧
        generatePulse (getCurrentActivities staleClassifier 0)
            (some { uuid := "user" }) "e4" "proj" "t" [] = none) :=
  ⟨by decide, by decide,
    getCurrentActivities_empty_when_fresh staleClassifier 0
      (some { uuid := "user" }) "e4" "proj" "t" [] (by decide) (by decide)⟩

end TimeFly
